import Mathlib

/-!
Shallow embedding of the quivr-obsidian-sync plugin (src/main.ts).

The plugin syncs local markdown documents into a remote "obsidian-sync"
folder of the Quivr knowledge service.  The sync routine `exploreAndUpload`
lists the remote items, reuses or creates the destination folder, and then
uploads every local markdown file one by one, swallowing per-file failures.

The embedding is trace-based: each network operation is parameterised by
its outcome (an `HttpResult`), and the sync routine returns the list of
API calls it issued together with the user-visible notices, so that claims
about "how many calls are issued, with which payloads" become statements
about the trace.
-/

namespace QuivrSync

/-- A file or folder record as known to the remote service
(spec section 3, used as the element type of the `GET /knowledge/files`
response in `fetchFiles`). -/
structure RemoteItem where
  id : String
  file_name : String
  is_folder : Bool
  parent_id : Option String
deriving DecidableEq, Repr

/-- The `AddKnowledgeFileData` interface of src/main.ts (lines 16-20):
the JSON metadata payload accompanying every create/upload request. -/
structure AddKnowledgeFileData where
  parent_id : Option String
  file_name : String
  is_folder : Bool
deriving DecidableEq, Repr

/-- A local markdown document as seen by the plugin: the `TFile` name and
extension together with the content `this.app.vault.read` returns for it. -/
structure TFile where
  name : String
  extension : String
  content : String
deriving DecidableEq, Repr

/-- Outcome of one HTTP request, as observed by the calling code:
either the transport threw (caught by the surrounding `try`), or a
response with a status code and a parsed JSON body came back. -/
inductive HttpResult (α : Type) where
  | thrown (err : String)
  | resp (status : Nat) (json : α)
deriving DecidableEq, Repr

/-- The JSON body of a successful `POST /knowledge/` folder creation:
`createFolder` only reads its `id` field (src/main.ts line 147). -/
structure CreateFolderResponse where
  id : String
deriving DecidableEq, Repr

/-- Outcome of one upload POST as observed by `uploadFile`: either the
request succeeded (HTTP 200) or it failed (thrown transport error, or the
non-2xx status that axios raises as an error), carrying the message the
catch block stringifies into the notice. -/
inductive UploadOutcome where
  | success
  | failure (err : String)
deriving DecidableEq, Repr

/-- JS truthiness of a `string | null` value, as tested by
`if (obsidianSyncFolderId)` in src/main.ts line 179: `null` and the empty
string are falsy, every other string is truthy. -/
def strOptTruthy : Option String → Bool
  | none => false
  | some s => !(s == "")

/-! ### JSON encoding (JSON.stringify on AddKnowledgeFileData) -/

/-- Lowercase hexadecimal digit, as used in `\u00XX` escapes. -/
def hexDigit (n : Nat) : Char :=
  if n < 10 then Char.ofNat ('0'.toNat + n) else Char.ofNat ('a'.toNat + (n - 10))

/-- Escape of one character inside a JSON string literal, as performed by
`JSON.stringify`: quote and backslash are backslash-escaped, the control
characters with short escapes become `\n`, `\r`, `\t`, `\b`, `\f`, every
other control character below U+0020 becomes `\u00XX` (lowercase hex), and
all remaining characters stay as they are. -/
def jsonEscapeChar (c : Char) : List Char :=
  if c = '"' then ['\\', '"']
  else if c = '\\' then ['\\', '\\']
  else if c = '\n' then ['\\', 'n']
  else if c = '\r' then ['\\', 'r']
  else if c = '\t' then ['\\', 't']
  else if c = '\x08' then ['\\', 'b']
  else if c = '\x0c' then ['\\', 'f']
  else if c.toNat < 0x20 then
    ['\\', 'u', '0', '0', hexDigit (c.toNat / 16), hexDigit (c.toNat % 16)]
  else [c]

/-- A character that JSON encoding leaves untouched: not a quote, not a
backslash, not a control character below U+0020. -/
def jsonPlainChar (c : Char) : Bool :=
  !(c = '"' || c = '\\' || c.toNat < 0x20)

/-- Escape of a character sequence inside a JSON string literal. -/
def jsonEscapeData : List Char → List Char
  | [] => []
  | c :: cs => jsonEscapeChar c ++ jsonEscapeData cs

/-- JSON encoding of a string: the escaped characters between quotes. -/
def jsonEncodeString (s : String) : String :=
  "\"" ++ String.mk (jsonEscapeData s.data) ++ "\""

/-- `JSON.stringify` applied to an `AddKnowledgeFileData` record, with the
keys in the insertion order used throughout src/main.ts:
`parent_id`, `file_name`, `is_folder`. -/
def jsonStringifyKnowledgeData (d : AddKnowledgeFileData) : String :=
  "\x7b\"parent_id\":" ++
    (match d.parent_id with
     | none => "null"
     | some s => jsonEncodeString s) ++
  ",\"file_name\":" ++ jsonEncodeString d.file_name ++
  ",\"is_folder\":" ++ (if d.is_folder then "true" else "false") ++ "\x7d"

/-! ### Remote API client -/

/-- Result of `fetchFiles`: the item sequence handed to the caller plus the
notices raised on the way. -/
structure FetchResult where
  files : List RemoteItem
  notices : List String
deriving DecidableEq, Repr

/-- `fetchFiles` (src/main.ts lines 106-130): authenticated GET of
`/knowledge/files`.  On HTTP 200 it returns the parsed body; on any other
status it raises a notice and returns `[]`; a thrown transport error is
caught, a notice is raised and `[]` is returned.  It never propagates a
failure to its caller. -/
def fetchFiles (o : HttpResult (List RemoteItem)) : FetchResult :=
  match o with
  | .thrown _ =>
      { files := [], notices := ["Error fetching files. Check console for details."] }
  | .resp status body =>
      if status = 200 then
        { files := body, notices := [] }
      else
        { files := [], notices := ["Failed to fetch files: " ++ toString status] }

/-- The `knowledge_data` form field of the folder-creation POST body: the
string src/main.ts line 142 interpolates the folder name into.  Note the
name is spliced in verbatim, with no JSON escaping. -/
def createFolderKnowledgeData (folderName : String) : String :=
  "\x7b\"parent_id\":null,\"file_name\":\"" ++ folderName ++ "\",\"is_folder\":true\x7d"

/-- The full hand-built multipart body of the folder-creation POST
(src/main.ts line 142). -/
def createFolderRequestBody (folderName : String) : String :=
  "------WebKitFormBoundaryjpD4mAhPBDMdS5QN\r\nContent-Disposition: form-data; name=\"knowledge_data\"\r\n\r\n"
    ++ createFolderKnowledgeData folderName
    ++ "\r\n------WebKitFormBoundaryjpD4mAhPBDMdS5QN--\r\n"

/-- Result of `createFolder`: the returned id (or `none`) plus the notices
raised on the way. -/
structure CreateFolderResult where
  folderId : Option String
  notices : List String
deriving DecidableEq, Repr

/-- `createFolder` (src/main.ts lines 132-160): authenticated POST of the
hand-built multipart body.  On HTTP 200 it returns the `id` of the response
body; on any other status or a thrown error it raises a notice and returns
`null`. -/
def createFolder (folderName : String) (o : HttpResult CreateFolderResponse) :
    CreateFolderResult :=
  match o with
  | .thrown _ =>
      { folderId := none,
        notices := ["Error creating folder \"" ++ folderName ++ "\"."] }
  | .resp status body =>
      if status = 200 then
        { folderId := some body.id,
          notices := ["Folder \"" ++ folderName ++ "\" created successfully with ID: "
                        ++ body.id ++ "."] }
      else
        { folderId := none,
          notices := ["Failed to create folder \"" ++ folderName ++ "\"."] }

/-- The multipart form data built by `addKnowledgeFile`
(src/main.ts lines 23-39): the `knowledge_data` field and the `file` field
(file name plus raw bytes). -/
structure FormData where
  knowledge_data : String
  fileName : String
  fileBytes : String
deriving DecidableEq, Repr

/-- `addKnowledgeFile` (src/main.ts lines 23-39): appends
`JSON.stringify(knowledgeData)` as the `knowledge_data` field and the file
as the `file` field, then POSTs to `/knowledge/`. -/
def addKnowledgeFile (knowledgeData : AddKnowledgeFileData)
    (fileName : String) (fileBytes : String) : FormData :=
  { knowledge_data := jsonStringifyKnowledgeData knowledgeData,
    fileName := fileName,
    fileBytes := fileBytes }

/-- The upload request `uploadFile` assembles for one file: the
`AddKnowledgeFileData` record, the uploaded file (name and raw content) and
the blob content type. -/
structure UploadRequest where
  knowledge_data : AddKnowledgeFileData
  fileName : String
  fileContent : String
  contentType : String
deriving DecidableEq, Repr

/-- The request `uploadFile` (src/main.ts lines 189-208) builds for `file`
under `parentId`: `knowledge_data` has `is_folder = false` and carries the
parent id; the blob content type is `text/markdown` for the `md` extension
and `application/pdf` otherwise. -/
def uploadRequestOf (file : TFile) (parentId : Option String) : UploadRequest :=
  { knowledge_data :=
      { parent_id := parentId, file_name := file.name, is_folder := false },
    fileName := file.name,
    fileContent := file.content,
    contentType := if file.extension == "md" then "text/markdown" else "application/pdf" }

/-- The multipart form data the upload POST carries, via `addKnowledgeFile`. -/
def uploadFormData (r : UploadRequest) : FormData :=
  addKnowledgeFile r.knowledge_data r.fileName r.fileContent

/-- Result of one `uploadFile` call: the request it issued and the notices
it raised.  `uploadFile` always returns normally: both a thrown error and a
failed response end in the catch block's notice. -/
structure UploadResult where
  request : UploadRequest
  notices : List String
deriving DecidableEq, Repr

/-- `uploadFile` (src/main.ts lines 189-214): builds the request, issues it
through `addKnowledgeFile`, and converts the outcome into a notice.  Every
failure is caught inside this function. -/
def uploadFile (file : TFile) (parentId : Option String)
    (outcome : UploadOutcome) : UploadResult :=
  { request := uploadRequestOf file parentId,
    notices :=
      match outcome with
      | .success => ["File uploaded successfully: " ++ file.name]
      | .failure err => ["Error uploading file \"" ++ file.name ++ "\": " ++ err] }

/-! ### Sync orchestrator -/

/-- One API call issued during a sync invocation. -/
inductive ApiCall where
  | listFiles
  | createFolderCall (body : String)
  | uploadCall (request : UploadRequest)
deriving DecidableEq, Repr

/-- The matching predicate of the reconciler (src/main.ts line 169):
`file.file_name === 'obsidian-sync' && file.is_folder`. -/
def folderMatch (f : RemoteItem) : Bool :=
  f.file_name == "obsidian-sync" && f.is_folder

/-- The folder id resolution of `exploreAndUpload`
(src/main.ts lines 166-177): reuse the first remote item matching
`folderMatch`, otherwise take whatever `createFolder` returned. -/
def resolveFolderId (files : List RemoteItem)
    (createOutcome : HttpResult CreateFolderResponse) : Option String :=
  match files.find? folderMatch with
  | some f => some f.id
  | none => (createFolder "obsidian-sync" createOutcome).folderId

/-- The upload loop of `exploreAndUpload` (src/main.ts lines 180-183):
one `uploadFile` per local document, in enumeration order, the i-th
attempt observing `uploadOutcome i`.  Returns the calls and notices. -/
def runUploads : List TFile → Option String → (Nat → UploadOutcome) → Nat →
    List ApiCall × List String
  | [], _, _, _ => ([], [])
  | file :: rest, pid, oc, i =>
      let r := uploadFile file pid (oc i)
      let (cs, ns) := runUploads rest pid oc (i + 1)
      (ApiCall.uploadCall r.request :: cs,
       ("Uploading file: " ++ file.name) :: r.notices ++ ns)

/-- The trace of one sync invocation: the API calls issued, in order, and
the notices raised, in order. -/
structure SyncTrace where
  calls : List ApiCall
  notices : List String
deriving DecidableEq, Repr

/-- `exploreAndUpload` (src/main.ts lines 162-187): list the remote items,
reuse or create the `obsidian-sync` folder, and if the resolved id is
truthy upload every local markdown file into it; otherwise raise the
failure notice and stop. -/
def exploreAndUpload (markdownFiles : List TFile)
    (listOutcome : HttpResult (List RemoteItem))
    (createOutcome : HttpResult CreateFolderResponse)
    (uploadOutcome : Nat → UploadOutcome) : SyncTrace :=
  let fetched := fetchFiles listOutcome
  let files := fetched.files
  let foundNotice :=
    "Found Quivr files: " ++ String.intercalate ", " (files.map (·.file_name))
  let obsidianSyncFolderId := resolveFolderId files createOutcome
  let reconcileCalls : List ApiCall :=
    match files.find? folderMatch with
    | some _ => []
    | none => [ApiCall.createFolderCall (createFolderRequestBody "obsidian-sync")]
  let reconcileNotices : List String :=
    match files.find? folderMatch with
    | some f => ["Found existing folder: " ++ f.file_name]
    | none => "Creating new folder in Quivr..."
                :: (createFolder "obsidian-sync" createOutcome).notices
  let uploadPhase : List ApiCall × List String :=
    if strOptTruthy obsidianSyncFolderId then
      runUploads markdownFiles obsidianSyncFolderId uploadOutcome 0
    else
      ([], ["Failed to determine folder ID for uploads."])
  { calls := ApiCall.listFiles :: reconcileCalls ++ uploadPhase.1,
    notices := fetched.notices ++ foundNotice :: reconcileNotices ++ uploadPhase.2 }

/-! ### Trace observations -/

/-- The upload requests carried by a call trace, in order. -/
def uploadCalls (calls : List ApiCall) : List UploadRequest :=
  calls.filterMap fun c =>
    match c with
    | .uploadCall r => some r
    | _ => none

/-- Whether a call is a folder-creation POST. -/
def isCreateCall : ApiCall → Bool
  | .createFolderCall _ => true
  | _ => false

/-- Whether a call is the listing GET. -/
def isListCall : ApiCall → Bool
  | .listFiles => true
  | _ => false

/-- Number of folder-creation calls in a trace. -/
def countCreate (calls : List ApiCall) : Nat :=
  (calls.filter isCreateCall).length

/-- Number of listing calls in a trace. -/
def countList (calls : List ApiCall) : Nat :=
  (calls.filter isListCall).length

/-! ### JSON deserialization of the knowledge_data field

The repository only serializes; the deserializer below follows the spec's
round-trip property ("whose `knowledge_data` field deserializes to
`\x7bparent_id, file_name, is_folder\x7d`"): it inverts the exact JSON
shape produced by `jsonStringifyKnowledgeData`. -/

/-- Consume an expected literal character sequence from the input,
returning the remainder, or `none` on a mismatch. -/
def expectChars : List Char → List Char → Option (List Char)
  | [], input => some input
  | _ :: _, [] => none
  | p :: ps, c :: cs => if c = p then expectChars ps cs else none

/-- Unescape of one JSON escape character (the character after a
backslash inside a JSON string literal). -/
def jsonUnescapeChar (c : Char) : Option Char :=
  if c = '"' then some '"'
  else if c = '\\' then some '\\'
  else if c = '/' then some '/'
  else if c = 'n' then some '\n'
  else if c = 'r' then some '\r'
  else if c = 't' then some '\t'
  else if c = 'b' then some '\x08'
  else if c = 'f' then some '\x0c'
  else none

/-- Parse the body of a JSON string literal (the opening quote already
consumed) up to its closing quote; returns the decoded characters and the
remaining input. -/
def parseJsonStringChars : List Char → Option (List Char × List Char)
  | [] => none
  | c :: rest =>
      if c = '"' then some ([], rest)
      else if c = '\\' then
        match rest with
        | [] => none
        | e :: rest' =>
            match jsonUnescapeChar e with
            | none => none
            | some d =>
                match parseJsonStringChars rest' with
                | none => none
                | some (s, r) => some (d :: s, r)
      else
        match parseJsonStringChars rest with
        | none => none
        | some (s, r) => some (c :: s, r)
termination_by l => l.length
decreasing_by all_goals simp_arith [*]

/-- Parse the `parent_id` value: either `null` or a JSON string literal. -/
def parseParentId (l : List Char) : Option (Option String × List Char) :=
  match l with
  | [] => none
  | c :: rest =>
      if c = 'n' then
        match expectChars "ull".data rest with
        | some r => some (none, r)
        | none => none
      else if c = '"' then
        match parseJsonStringChars rest with
        | some (s, r) => some (some (String.mk s), r)
        | none => none
      else none

/-- Parse the `is_folder` value followed by the closing brace, requiring
the input to end there. -/
def parseIsFolderEnd (l : List Char) : Option Bool :=
  match l with
  | [] => none
  | c :: r =>
      if c = 't' then
        match expectChars "rue\x7d".data r with
        | some [] => some true
        | _ => none
      else if c = 'f' then
        match expectChars "alse\x7d".data r with
        | some [] => some false
        | _ => none
      else none

/-- Deserialize a `knowledge_data` field of the exact shape produced by
`JSON.stringify` on an `AddKnowledgeFileData` record. -/
def parseKnowledgeData (s : String) : Option AddKnowledgeFileData :=
  match expectChars "\x7b\"parent_id\":".data s.data with
  | none => none
  | some rest1 =>
      match parseParentId rest1 with
      | none => none
      | some (pid, rest2) =>
          match expectChars ",\"file_name\":\"".data rest2 with
          | none => none
          | some rest3 =>
              match parseJsonStringChars rest3 with
              | none => none
              | some (fname, rest4) =>
                  match expectChars ",\"is_folder\":".data rest4 with
                  | none => none
                  | some rest5 =>
                      match parseIsFolderEnd rest5 with
                      | none => none
                      | some b => some ⟨pid, String.mk fname, b⟩

/-! ### Helper lemmas: strings and JSON -/

theorem append_merge (a b c : String) (h : a ++ b = c) (x : String) :
    a ++ (b ++ x) = c ++ x := by
  rw [← String.append_assoc, h]

theorem data_mk (l : List Char) : (String.mk l).data = l := rfl

theorem jsonEscapeChar_plain (c : Char) (h : jsonPlainChar c = true) :
    jsonEscapeChar c = [c] := by
  simp only [jsonPlainChar, Bool.not_eq_true', decide_eq_true_eq, Bool.or_eq_false_iff,
    decide_eq_false_iff_not] at h
  obtain ⟨⟨h1, h2⟩, h3⟩ := h
  have hn : ¬(c = '\n') := by rintro rfl; exact h3 (by decide)
  have hr : ¬(c = '\r') := by rintro rfl; exact h3 (by decide)
  have ht : ¬(c = '\t') := by rintro rfl; exact h3 (by decide)
  have hb : ¬(c = '\x08') := by rintro rfl; exact h3 (by decide)
  have hf : ¬(c = '\x0c') := by rintro rfl; exact h3 (by decide)
  simp [jsonEscapeChar, h1, h2, hn, hr, ht, hb, hf, h3]

theorem jsonEscapeData_plain (l : List Char) (h : ∀ c ∈ l, jsonPlainChar c = true) :
    jsonEscapeData l = l := by
  induction l with
  | nil => rfl
  | cons c cs ih =>
      have hc := h c (List.mem_cons_self c cs)
      have hcs := fun d hd => h d (List.mem_cons_of_mem c hd)
      simp [jsonEscapeData, jsonEscapeChar_plain c hc, ih hcs]

theorem plainChar_ne_quote (c : Char) (h : jsonPlainChar c = true) : ¬(c = '"') := by
  simp only [jsonPlainChar, Bool.not_eq_true', decide_eq_true_eq, Bool.or_eq_false_iff,
    decide_eq_false_iff_not] at h
  exact h.1.1

theorem plainChar_ne_backslash (c : Char) (h : jsonPlainChar c = true) : ¬(c = '\\') := by
  simp only [jsonPlainChar, Bool.not_eq_true', decide_eq_true_eq, Bool.or_eq_false_iff,
    decide_eq_false_iff_not] at h
  exact h.1.2

theorem parseJsonStringChars_plain (l r : List Char) (h : ∀ c ∈ l, jsonPlainChar c = true) :
    parseJsonStringChars (l ++ '"' :: r) = some (l, r) := by
  induction l with
  | nil =>
      rw [List.nil_append, parseJsonStringChars.eq_def]
      simp
  | cons c cs ih =>
      have hc := h c (List.mem_cons_self c cs)
      have hcs := fun d hd => h d (List.mem_cons_of_mem c hd)
      rw [List.cons_append, parseJsonStringChars.eq_def]
      simp [plainChar_ne_quote c hc, plainChar_ne_backslash c hc, ih hcs]

theorem parseIsFolderEnd_true : parseIsFolderEnd "true\x7d".data = some true := rfl

theorem parseIsFolderEnd_false : parseIsFolderEnd "false\x7d".data = some false := rfl

theorem stringify_split_none (fn : String) (b : Bool) :
    jsonStringifyKnowledgeData ⟨none, fn, b⟩
      = "\x7b\"parent_id\":" ++ ("null" ++ (",\"file_name\":\"" ++
          (String.mk (jsonEscapeData fn.data) ++ ("\"" ++ (",\"is_folder\":" ++
            (if b then ("true\x7d" : String) else ("false\x7d" : String))))))) := by
  cases b
  · simp only [jsonStringifyKnowledgeData, jsonEncodeString, if_false, Bool.false_eq_true]
    repeat rw [String.append_assoc]
    rw [append_merge ",\"file_name\":" "\"" ",\"file_name\":\"" (by decide)]
    rw [show ("false" ++ "\x7d" : String) = "false\x7d" by decide]
  · simp only [jsonStringifyKnowledgeData, jsonEncodeString, if_true]
    repeat rw [String.append_assoc]
    rw [append_merge ",\"file_name\":" "\"" ",\"file_name\":\"" (by decide)]
    rw [show ("true" ++ "\x7d" : String) = "true\x7d" by decide]

theorem stringify_split_some (s fn : String) (b : Bool) :
    jsonStringifyKnowledgeData ⟨some s, fn, b⟩
      = "\x7b\"parent_id\":" ++ ("\"" ++ (String.mk (jsonEscapeData s.data) ++ ("\"" ++
          (",\"file_name\":\"" ++ (String.mk (jsonEscapeData fn.data) ++ ("\"" ++
            (",\"is_folder\":" ++
              (if b then ("true\x7d" : String) else ("false\x7d" : String))))))))) := by
  cases b
  · simp only [jsonStringifyKnowledgeData, jsonEncodeString, if_false, Bool.false_eq_true]
    repeat rw [String.append_assoc]
    rw [append_merge ",\"file_name\":" "\"" ",\"file_name\":\"" (by decide)]
    rw [show ("false" ++ "\x7d" : String) = "false\x7d" by decide]
  · simp only [jsonStringifyKnowledgeData, jsonEncodeString, if_true]
    repeat rw [String.append_assoc]
    rw [append_merge ",\"file_name\":" "\"" ",\"file_name\":\"" (by decide)]
    rw [show ("true" ++ "\x7d" : String) = "true\x7d" by decide]

theorem stringify_data_none (fn : String) (b : Bool) :
    (jsonStringifyKnowledgeData ⟨none, fn, b⟩).data
      = "\x7b\"parent_id\":".data ++ ("null".data ++ (",\"file_name\":\"".data ++
          (jsonEscapeData fn.data ++ ("\"".data ++ (",\"is_folder\":".data ++
            (if b then ("true\x7d" : String).data else ("false\x7d" : String).data)))))) := by
  rw [stringify_split_none]
  cases b <;> simp only [String.data_append, data_mk, if_true, if_false, Bool.false_eq_true]

theorem stringify_data_some (s fn : String) (b : Bool) :
    (jsonStringifyKnowledgeData ⟨some s, fn, b⟩).data
      = "\x7b\"parent_id\":".data ++ ("\"".data ++ (jsonEscapeData s.data ++ ("\"".data ++
          (",\"file_name\":\"".data ++ (jsonEscapeData fn.data ++ ("\"".data ++
            (",\"is_folder\":".data ++
              (if b then ("true\x7d" : String).data
               else ("false\x7d" : String).data)))))))) := by
  rw [stringify_split_some]
  cases b <;> simp only [String.data_append, data_mk, if_true, if_false, Bool.false_eq_true]

/-- Round trip: parsing the `JSON.stringify` output of an
`AddKnowledgeFileData` record recovers the record, for field values made of
plain characters (no quotes, backslashes or control characters). -/
theorem parseKnowledgeData_stringify (d : AddKnowledgeFileData)
    (hp : ∀ s, d.parent_id = some s → ∀ c ∈ s.data, jsonPlainChar c = true)
    (hf : ∀ c ∈ d.file_name.data, jsonPlainChar c = true) :
    parseKnowledgeData (jsonStringifyKnowledgeData d) = some d := by
  obtain ⟨pid, fn, b⟩ := d
  simp only [AddKnowledgeFileData.file_name] at hf
  cases pid with
  | none =>
      have hstep : ∀ r, parseJsonStringChars (fn.data ++ '"' :: r) = some (fn.data, r) :=
        fun r => parseJsonStringChars_plain fn.data r hf
      rw [parseKnowledgeData]
      rw [stringify_data_none fn b, jsonEscapeData_plain fn.data hf]
      cases b <;>
        simp [expectChars, parseParentId, parseIsFolderEnd, hstep]
  | some s =>
      have hs : ∀ c ∈ s.data, jsonPlainChar c = true := hp s rfl
      have hstep : ∀ r, parseJsonStringChars (fn.data ++ '"' :: r) = some (fn.data, r) :=
        fun r => parseJsonStringChars_plain fn.data r hf
      have hsstep : ∀ r, parseJsonStringChars (s.data ++ '"' :: r) = some (s.data, r) :=
        fun r => parseJsonStringChars_plain s.data r hs
      rw [parseKnowledgeData]
      rw [stringify_data_some s fn b, jsonEscapeData_plain fn.data hf,
        jsonEscapeData_plain s.data hs]
      cases b <;>
        simp [expectChars, parseParentId, parseIsFolderEnd, hstep, hsstep]

/-! ### Helper lemmas: the sync trace -/

theorem runUploads_fst (files : List TFile) (pid : Option String)
    (oc : Nat → UploadOutcome) (i : Nat) :
    (runUploads files pid oc i).1
      = files.map (fun f => ApiCall.uploadCall (uploadRequestOf f pid)) := by
  induction files generalizing i with
  | nil => rfl
  | cons f rest ih => simp [runUploads, uploadFile, ih]

theorem exploreAndUpload_calls (md : List TFile) (lo : HttpResult (List RemoteItem))
    (co : HttpResult CreateFolderResponse) (uo : Nat → UploadOutcome) :
    (exploreAndUpload md lo co uo).calls
      = ApiCall.listFiles ::
          (match (fetchFiles lo).files.find? folderMatch with
           | some _ => []
           | none => [ApiCall.createFolderCall (createFolderRequestBody "obsidian-sync")])
          ++ (if strOptTruthy (resolveFolderId (fetchFiles lo).files co) then
                md.map (fun f =>
                  ApiCall.uploadCall
                    (uploadRequestOf f (resolveFolderId (fetchFiles lo).files co)))
              else []) := by
  unfold exploreAndUpload
  cases h : (fetchFiles lo).files.find? folderMatch <;>
  cases ht : strOptTruthy (resolveFolderId (fetchFiles lo).files co) <;>
  simp [h, ht, runUploads_fst]

theorem uploadCalls_nil : uploadCalls [] = [] := rfl

theorem uploadCalls_cons_list (cs : List ApiCall) :
    uploadCalls (ApiCall.listFiles :: cs) = uploadCalls cs := rfl

theorem uploadCalls_cons_create (b : String) (cs : List ApiCall) :
    uploadCalls (ApiCall.createFolderCall b :: cs) = uploadCalls cs := rfl

theorem uploadCalls_cons_upload (r : UploadRequest) (cs : List ApiCall) :
    uploadCalls (ApiCall.uploadCall r :: cs) = r :: uploadCalls cs := rfl

theorem uploadCalls_map_upload (l : List TFile) (pid : Option String) :
    uploadCalls (l.map fun f => ApiCall.uploadCall (uploadRequestOf f pid))
      = l.map fun f => uploadRequestOf f pid := by
  induction l with
  | nil => rfl
  | cons f rest ih =>
      rw [List.map_cons, uploadCalls_cons_upload, ih, List.map_cons]

theorem uploadCalls_exploreAndUpload (md : List TFile) (lo : HttpResult (List RemoteItem))
    (co : HttpResult CreateFolderResponse) (uo : Nat → UploadOutcome) :
    uploadCalls (exploreAndUpload md lo co uo).calls
      = (if strOptTruthy (resolveFolderId (fetchFiles lo).files co) then
           md.map (fun f => uploadRequestOf f (resolveFolderId (fetchFiles lo).files co))
         else []) := by
  rw [exploreAndUpload_calls]
  cases h : (fetchFiles lo).files.find? folderMatch <;>
  cases ht : strOptTruthy (resolveFolderId (fetchFiles lo).files co) <;>
  simp [h, ht, uploadCalls_nil, uploadCalls_cons_list, uploadCalls_cons_create,
    uploadCalls_map_upload]

theorem countCreate_exploreAndUpload (md : List TFile) (lo : HttpResult (List RemoteItem))
    (co : HttpResult CreateFolderResponse) (uo : Nat → UploadOutcome) :
    countCreate (exploreAndUpload md lo co uo).calls
      = (match (fetchFiles lo).files.find? folderMatch with
         | some _ => 0
         | none => 1) := by
  rw [exploreAndUpload_calls]
  cases h : (fetchFiles lo).files.find? folderMatch <;>
  cases ht : strOptTruthy (resolveFolderId (fetchFiles lo).files co) <;>
  simp [h, ht, countCreate, isCreateCall, List.filter_map]

theorem countList_exploreAndUpload (md : List TFile) (lo : HttpResult (List RemoteItem))
    (co : HttpResult CreateFolderResponse) (uo : Nat → UploadOutcome) :
    countList (exploreAndUpload md lo co uo).calls = 1 := by
  rw [exploreAndUpload_calls]
  cases h : (fetchFiles lo).files.find? folderMatch <;>
  cases ht : strOptTruthy (resolveFolderId (fetchFiles lo).files co) <;>
  simp [h, ht, countList, isListCall, List.filter_map]

theorem find?_eq_none_of_resolve_none (files : List RemoteItem)
    (co : HttpResult CreateFolderResponse)
    (h : resolveFolderId files co = none) :
    files.find? folderMatch = none := by
  cases hf : files.find? folderMatch with
  | none => rfl
  | some f =>
      rw [resolveFolderId, hf] at h
      exact absurd h (by simp)

theorem exploreAndUpload_notices (md : List TFile) (lo : HttpResult (List RemoteItem))
    (co : HttpResult CreateFolderResponse) (uo : Nat → UploadOutcome) :
    (exploreAndUpload md lo co uo).notices
      = (fetchFiles lo).notices
          ++ ("Found Quivr files: "
                ++ String.intercalate ", " ((fetchFiles lo).files.map (·.file_name)))
          :: (match (fetchFiles lo).files.find? folderMatch with
              | some f => ["Found existing folder: " ++ f.file_name]
              | none => "Creating new folder in Quivr..."
                          :: (createFolder "obsidian-sync" co).notices)
          ++ (if strOptTruthy (resolveFolderId (fetchFiles lo).files co) then
                (runUploads md (resolveFolderId (fetchFiles lo).files co) uo 0).2
              else ["Failed to determine folder ID for uploads."]) := by
  unfold exploreAndUpload
  cases h : (fetchFiles lo).files.find? folderMatch <;>
  cases ht : strOptTruthy (resolveFolderId (fetchFiles lo).files co) <;>
  simp [h, ht]

theorem find?_eq_get_of_first {α : Type} (l : List α) (p : α → Bool) (i : Nat)
    (hi : i < l.length) (hpi : p (l.get ⟨i, hi⟩) = true)
    (hmin : ∀ j (hj : j < l.length), j < i → p (l.get ⟨j, hj⟩) = false) :
    l.find? p = some (l.get ⟨i, hi⟩) := by
  induction l generalizing i with
  | nil => exact absurd hi (Nat.not_lt_zero i)
  | cons a rest ih =>
      cases i with
      | zero =>
          have hget : (a :: rest).get ⟨0, hi⟩ = a := rfl
          rw [hget] at hpi ⊢
          exact List.find?_cons_of_pos _ hpi
      | succ n =>
          have ha : p a = false :=
            hmin 0 (Nat.succ_pos rest.length) (Nat.succ_pos n)
          rw [List.find?_cons_of_neg _ (by simp [ha])]
          exact ih n (Nat.lt_of_succ_lt_succ hi) hpi
            (fun j hj hji =>
              hmin (j + 1) (Nat.succ_lt_succ hj) (Nat.succ_lt_succ hji))

/-! ### Claims -/

/-- C7: for every outcome of the listing call, `fetchFiles` never raises to
its caller: on HTTP 200 it returns the parsed item sequence (with no
failure notice), and on any non-200 status or thrown transport error it
reports the failure with a notice and returns the empty sequence. -/
theorem fetchFiles_never_raises (o : HttpResult (List RemoteItem)) :
    (∀ body, o = .resp 200 body → fetchFiles o = { files := body, notices := [] })
    ∧ (∀ s body, o = .resp s body → s ≠ 200 →
        (fetchFiles o).files = [] ∧ (fetchFiles o).notices ≠ [])
    ∧ (∀ e, o = .thrown e →
        (fetchFiles o).files = [] ∧ (fetchFiles o).notices ≠ []) := by
  refine ⟨?_, ?_, ?_⟩
  · rintro body rfl
    simp [fetchFiles]
  · rintro s body rfl hs
    simp [fetchFiles, hs]
  · rintro e rfl
    simp [fetchFiles]

/-- Witness for C7 at concrete outcomes: a 200 response, a 500 response and
a thrown transport error. -/
theorem fetchFiles_never_raises_witness :
    fetchFiles (.resp 200 [⟨"i1", "doc.md", false, none⟩])
      = { files := [⟨"i1", "doc.md", false, none⟩], notices := [] }
    ∧ (fetchFiles (.resp 500 [])).files = []
    ∧ (fetchFiles (.thrown "connection error")).files = []
    ∧ (fetchFiles (.thrown "connection error")).notices ≠ [] :=
  ⟨(fetchFiles_never_raises _).1 [⟨"i1", "doc.md", false, none⟩] rfl,
   ((fetchFiles_never_raises (.resp 500 [])).2.1 500 [] rfl (by decide)).1,
   ((fetchFiles_never_raises (.thrown "connection error")).2.2 "connection error" rfl).1,
   ((fetchFiles_never_raises (.thrown "connection error")).2.2 "connection error" rfl).2⟩

/-- C8 counterexample: for the folder name `a"b`, which contains a quote,
the interpolated `knowledge_data` field of the folder-creation body is not
the JSON encoding of the corresponding record — the name is spliced into
the body verbatim, with no JSON escaping. -/
theorem createFolder_encoding_counterexample :
    createFolderKnowledgeData "a\"b"
      ≠ jsonStringifyKnowledgeData ⟨none, "a\"b", true⟩ := by
  decide

/-- C8 (amended): for every folder name made of JSON-plain characters (no
quotes, backslashes or control characters), `createFolder(name)`
issues a POST whose multipart body wraps a `knowledge_data` field equal to
the JSON encoding of `\x7bparent_id: null, file_name: name,
is_folder: true\x7d`, and it returns the id of the response body on
HTTP 200 and null on any non-200 status or thrown error. -/
theorem createFolder_encodes_and_returns (name : String)
    (h : ∀ c ∈ name.data, jsonPlainChar c = true)
    (o : HttpResult CreateFolderResponse) :
    createFolderKnowledgeData name = jsonStringifyKnowledgeData ⟨none, name, true⟩
    ∧ createFolderRequestBody name
        = "------WebKitFormBoundaryjpD4mAhPBDMdS5QN\r\nContent-Disposition: form-data; name=\"knowledge_data\"\r\n\r\n"
            ++ createFolderKnowledgeData name
            ++ "\r\n------WebKitFormBoundaryjpD4mAhPBDMdS5QN--\r\n"
    ∧ (∀ j, o = .resp 200 j → (createFolder name o).folderId = some j.id)
    ∧ (∀ s j, o = .resp s j → s ≠ 200 → (createFolder name o).folderId = none)
    ∧ (∀ e, o = .thrown e → (createFolder name o).folderId = none) := by
  refine ⟨?_, rfl, ?_, ?_, ?_⟩
  · apply String.ext
    simp [createFolderKnowledgeData, jsonStringifyKnowledgeData, jsonEncodeString,
      String.data_append, data_mk, jsonEscapeData_plain name.data h]
  · rintro j rfl
    simp [createFolder]
  · rintro s j rfl hs
    simp [createFolder, hs]
  · rintro e rfl
    simp [createFolder]

/-- Witness for C8's amended theorem at the folder name the plugin actually
uses and a successful creation response. -/
theorem createFolder_encodes_and_returns_witness :
    createFolderKnowledgeData "obsidian-sync"
      = jsonStringifyKnowledgeData ⟨none, "obsidian-sync", true⟩
    ∧ (createFolder "obsidian-sync" (.resp 200 ⟨"id-1"⟩)).folderId = some "id-1"
    ∧ (createFolder "obsidian-sync" (.resp 422 ⟨"id-1"⟩)).folderId = none :=
  ⟨(createFolder_encodes_and_returns "obsidian-sync" (by decide) (.resp 200 ⟨"id-1"⟩)).1,
   (createFolder_encodes_and_returns "obsidian-sync" (by decide)
      (.resp 200 ⟨"id-1"⟩)).2.2.1 ⟨"id-1"⟩ rfl,
   (createFolder_encodes_and_returns "obsidian-sync" (by decide)
      (.resp 422 ⟨"id-1"⟩)).2.2.2.1 422 ⟨"id-1"⟩ rfl (by decide)⟩

/-- C9: uploading `notes.md` with content `# Hello` under a resolved folder
id (made of JSON-plain characters) produces a multipart request whose
`knowledge_data` field deserializes back to `\x7bparent_id: id,
file_name: "notes.md", is_folder: false\x7d`, whose `file` field equals the
document content byte for byte, and whose blob content type is
`text/markdown`. -/
theorem upload_roundtrip (rid : String)
    (h : ∀ c ∈ rid.data, jsonPlainChar c = true) (outcome : UploadOutcome) :
    parseKnowledgeData
        (uploadFormData
          (uploadFile ⟨"notes.md", "md", "# Hello"⟩ (some rid) outcome).request).knowledge_data
      = some ⟨some rid, "notes.md", false⟩
    ∧ (uploadFormData
        (uploadFile ⟨"notes.md", "md", "# Hello"⟩ (some rid) outcome).request).fileBytes
        = "# Hello"
    ∧ (uploadFormData
        (uploadFile ⟨"notes.md", "md", "# Hello"⟩ (some rid) outcome).request).fileName
        = "notes.md"
    ∧ (uploadFile ⟨"notes.md", "md", "# Hello"⟩ (some rid) outcome).request.contentType
        = "text/markdown" := by
  refine ⟨?_, rfl, rfl, rfl⟩
  show parseKnowledgeData (jsonStringifyKnowledgeData ⟨some rid, "notes.md", false⟩)
      = some ⟨some rid, "notes.md", false⟩
  have hf : ∀ c ∈ ("notes.md" : String).data, jsonPlainChar c = true := by decide
  exact parseKnowledgeData_stringify ⟨some rid, "notes.md", false⟩
    (fun s hs => by cases hs; exact h) hf

/-- Witness for C9 at a concrete resolved folder id. -/
theorem upload_roundtrip_witness :
    parseKnowledgeData
        (uploadFormData
          (uploadFile ⟨"notes.md", "md", "# Hello"⟩ (some "folder-123") .success).request).knowledge_data
      = some ⟨some "folder-123", "notes.md", false⟩
    ∧ (uploadFormData
        (uploadFile ⟨"notes.md", "md", "# Hello"⟩ (some "folder-123") .success).request).fileBytes
        = "# Hello"
    ∧ (uploadFormData
        (uploadFile ⟨"notes.md", "md", "# Hello"⟩ (some "folder-123") .success).request).fileName
        = "notes.md"
    ∧ (uploadFile ⟨"notes.md", "md", "# Hello"⟩ (some "folder-123") .success).request.contentType
        = "text/markdown" :=
  upload_roundtrip "folder-123" (by decide) .success

/-- C1 counterexample: folder resolution can yield a non-null id that is
the empty string (a remote folder whose `id` is `""`); the guard
`if (obsidianSyncFolderId)` treats the empty string as falsy, so zero
upload calls are issued even though one local document is present. -/
theorem nonNull_empty_id_yields_no_uploads :
    resolveFolderId [⟨"", "obsidian-sync", true, none⟩] (.resp 200 ⟨"new-id"⟩)
      = some ""
    ∧ uploadCalls (exploreAndUpload [⟨"a.md", "md", "x"⟩]
        (.resp 200 [⟨"", "obsidian-sync", true, none⟩])
        (.resp 200 ⟨"new-id"⟩) (fun _ => .success)).calls = [] := by
  constructor <;> rfl

/-- C1 (amended): for every list of local markdown documents of size N,
when folder resolution yields a non-null, non-empty (JS-truthy) id the
orchestrator issues exactly N upload calls, one per document in enumeration
order, each carrying the resolved folder id as parent id, regardless of
whether individual uploads fail; and for N = 0 it issues zero upload calls
while still performing reconciliation: one listing call, plus a
create-folder call exactly when no match is found. -/
theorem uploads_exactly_one_per_document (md : List TFile)
    (lo : HttpResult (List RemoteItem)) (co : HttpResult CreateFolderResponse)
    (uo : Nat → UploadOutcome) :
    (∀ fid, resolveFolderId (fetchFiles lo).files co = some fid → fid ≠ "" →
        uploadCalls (exploreAndUpload md lo co uo).calls
          = md.map fun f => uploadRequestOf f (some fid))
    ∧ (md = [] →
        uploadCalls (exploreAndUpload md lo co uo).calls = []
        ∧ countList (exploreAndUpload md lo co uo).calls = 1
        ∧ countCreate (exploreAndUpload md lo co uo).calls
            = (match (fetchFiles lo).files.find? folderMatch with
               | some _ => 0
               | none => 1)) := by
  constructor
  · intro fid hres hne
    rw [uploadCalls_exploreAndUpload, hres]
    simp [strOptTruthy, hne]
  · intro hmd
    subst hmd
    refine ⟨?_, countList_exploreAndUpload [] lo co uo,
      countCreate_exploreAndUpload [] lo co uo⟩
    rw [uploadCalls_exploreAndUpload]
    simp

/-- Witness for C1's amended theorem: with one remote folder of truthy id
and two local documents, exactly two upload calls are issued, in order,
both carrying the resolved folder id; and with no local documents, zero
upload calls and one listing call. -/
theorem uploads_exactly_one_per_document_witness :
    uploadCalls (exploreAndUpload [⟨"a.md", "md", "x"⟩, ⟨"b.md", "md", "y"⟩]
        (.resp 200 [⟨"fid", "obsidian-sync", true, none⟩])
        (.thrown "unused") (fun _ => .success)).calls
      = [uploadRequestOf ⟨"a.md", "md", "x"⟩ (some "fid"),
         uploadRequestOf ⟨"b.md", "md", "y"⟩ (some "fid")]
    ∧ uploadCalls (exploreAndUpload []
        (.resp 200 [⟨"fid", "obsidian-sync", true, none⟩])
        (.thrown "unused") (fun _ => .success)).calls = []
    ∧ countList (exploreAndUpload []
        (.resp 200 [⟨"fid", "obsidian-sync", true, none⟩])
        (.thrown "unused") (fun _ => .success)).calls = 1 :=
  ⟨(uploads_exactly_one_per_document [⟨"a.md", "md", "x"⟩, ⟨"b.md", "md", "y"⟩]
      (.resp 200 [⟨"fid", "obsidian-sync", true, none⟩])
      (.thrown "unused") (fun _ => .success)).1 "fid" rfl (by decide),
   ((uploads_exactly_one_per_document []
      (.resp 200 [⟨"fid", "obsidian-sync", true, none⟩])
      (.thrown "unused") (fun _ => .success)).2 rfl).1,
   ((uploads_exactly_one_per_document []
      (.resp 200 [⟨"fid", "obsidian-sync", true, none⟩])
      (.thrown "unused") (fun _ => .success)).2 rfl).2.1⟩

/-- C2: for every remote item list whose first item matching
`is_folder = true` and `file_name = "obsidian-sync"` sits at position i,
the reconciliation step returns that item's id and the sync trace contains
no create-folder call. -/
theorem reconcile_returns_first_match (md : List TFile) (files : List RemoteItem)
    (co : HttpResult CreateFolderResponse) (uo : Nat → UploadOutcome)
    (i : Nat) (hi : i < files.length)
    (hmatch : folderMatch (files.get ⟨i, hi⟩) = true)
    (hfirst : ∀ j (hj : j < files.length), j < i →
      folderMatch (files.get ⟨j, hj⟩) = false) :
    resolveFolderId files co = some (files.get ⟨i, hi⟩).id
    ∧ countCreate (exploreAndUpload md (.resp 200 files) co uo).calls = 0 := by
  have hfind := find?_eq_get_of_first files folderMatch i hi hmatch hfirst
  constructor
  · rw [resolveFolderId, hfind]
  · rw [countCreate_exploreAndUpload,
      show (fetchFiles (.resp 200 files)).files = files from rfl, hfind]

/-- Witness for C2: the matching folder is second in the remote list, after
a non-matching file entry; its id is returned and no create call issued. -/
theorem reconcile_returns_first_match_witness :
    resolveFolderId
        [⟨"x1", "notes.md", false, none⟩, ⟨"fid", "obsidian-sync", true, none⟩]
        (.thrown "unused")
      = some "fid"
    ∧ countCreate (exploreAndUpload []
        (.resp 200 [⟨"x1", "notes.md", false, none⟩, ⟨"fid", "obsidian-sync", true, none⟩])
        (.thrown "unused") (fun _ => .success)).calls = 0 :=
  reconcile_returns_first_match []
    [⟨"x1", "notes.md", false, none⟩, ⟨"fid", "obsidian-sync", true, none⟩]
    (.thrown "unused") (fun _ => .success) 1 (by decide) (by decide)
    (by
      intro j hj hj1
      have hj0 : j = 0 := by omega
      subst hj0
      rfl)

/-- C3: for every remote item list containing no matching folder, the sync
issues exactly one create-folder call, whose body carries
`knowledge_data = \x7bparent_id: null, file_name: "obsidian-sync",
is_folder: true\x7d`, and resolution returns the id that call produced, or
null if it failed. -/
theorem reconcile_creates_folder_when_missing (md : List TFile)
    (files : List RemoteItem) (co : HttpResult CreateFolderResponse)
    (uo : Nat → UploadOutcome)
    (hnone : ∀ f ∈ files, folderMatch f = false) :
    countCreate (exploreAndUpload md (.resp 200 files) co uo).calls = 1
    ∧ ApiCall.createFolderCall (createFolderRequestBody "obsidian-sync")
        ∈ (exploreAndUpload md (.resp 200 files) co uo).calls
    ∧ createFolderKnowledgeData "obsidian-sync"
        = jsonStringifyKnowledgeData ⟨none, "obsidian-sync", true⟩
    ∧ resolveFolderId files co = (createFolder "obsidian-sync" co).folderId
    ∧ (∀ j, co = .resp 200 j → resolveFolderId files co = some j.id)
    ∧ (∀ s j, co = .resp s j → s ≠ 200 → resolveFolderId files co = none)
    ∧ (∀ e, co = .thrown e → resolveFolderId files co = none) := by
  have hfind : files.find? folderMatch = none :=
    List.find?_eq_none.mpr fun f hf => by simp [hnone f hf]
  have hfetch : (fetchFiles (.resp 200 files)).files = files := rfl
  refine ⟨?_, ?_, by decide, ?_, ?_, ?_, ?_⟩
  · rw [countCreate_exploreAndUpload, hfetch, hfind]
  · rw [exploreAndUpload_calls, hfetch, hfind]
    simp
  · rw [resolveFolderId, hfind]
  · rintro j rfl
    rw [resolveFolderId, hfind]
    simp [createFolder]
  · rintro s j rfl hs
    rw [resolveFolderId, hfind]
    simp [createFolder, hs]
  · rintro e rfl
    rw [resolveFolderId, hfind]
    simp [createFolder]

/-- Witness for C3: a remote list holding only a file entry; one create
call is issued and the id of the creation response is returned. -/
theorem reconcile_creates_folder_when_missing_witness :
    countCreate (exploreAndUpload [] (.resp 200 [⟨"x1", "notes.md", false, none⟩])
        (.resp 200 ⟨"new-id"⟩) (fun _ => .success)).calls = 1
    ∧ resolveFolderId [⟨"x1", "notes.md", false, none⟩] (.resp 200 ⟨"new-id"⟩)
        = some "new-id" :=
  ⟨(reconcile_creates_folder_when_missing [] [⟨"x1", "notes.md", false, none⟩]
      (.resp 200 ⟨"new-id"⟩) (fun _ => .success) (by decide)).1,
   (reconcile_creates_folder_when_missing [] [⟨"x1", "notes.md", false, none⟩]
      (.resp 200 ⟨"new-id"⟩) (fun _ => .success) (by decide)).2.2.2.2.1
      ⟨"new-id"⟩ rfl⟩

/-- C4: a failure of the i-th upload is caught inside `uploadFile` (which
still builds the request and converts the failure into a notice), the call
trace does not depend on upload outcomes at all, and whenever the resolved
folder id is truthy every document still gets exactly one upload attempt. -/
theorem upload_failures_are_isolated (md : List TFile)
    (lo : HttpResult (List RemoteItem)) (co : HttpResult CreateFolderResponse)
    (uo : Nat → UploadOutcome) (i : Nat) (err : String)
    (hfail : uo i = .failure err) :
    (∀ file pid, (uploadFile file pid (uo i)).request = uploadRequestOf file pid
        ∧ (uploadFile file pid (uo i)).notices
            = ["Error uploading file \"" ++ file.name ++ "\": " ++ err])
    ∧ (exploreAndUpload md lo co uo).calls
        = (exploreAndUpload md lo co fun _ => .success).calls
    ∧ (∀ fid, resolveFolderId (fetchFiles lo).files co = some fid → fid ≠ "" →
        uploadCalls (exploreAndUpload md lo co uo).calls
          = md.map fun f => uploadRequestOf f (some fid)) := by
  refine ⟨?_, ?_, ?_⟩
  · intro file pid
    rw [hfail]
    exact ⟨rfl, rfl⟩
  · rw [exploreAndUpload_calls, exploreAndUpload_calls]
  · intro fid hres hne
    rw [uploadCalls_exploreAndUpload, hres]
    simp [strOptTruthy, hne]

/-- Witness for C4: the first of two uploads fails, yet both documents get
their upload attempt and the trace equals the all-success trace. -/
theorem upload_failures_are_isolated_witness :
    (exploreAndUpload [⟨"a.md", "md", "x"⟩, ⟨"b.md", "md", "y"⟩]
        (.resp 200 [⟨"fid", "obsidian-sync", true, none⟩]) (.thrown "unused")
        (fun n => if n = 0 then .failure "boom" else .success)).calls
      = (exploreAndUpload [⟨"a.md", "md", "x"⟩, ⟨"b.md", "md", "y"⟩]
          (.resp 200 [⟨"fid", "obsidian-sync", true, none⟩]) (.thrown "unused")
          fun _ => .success).calls
    ∧ uploadCalls (exploreAndUpload [⟨"a.md", "md", "x"⟩, ⟨"b.md", "md", "y"⟩]
        (.resp 200 [⟨"fid", "obsidian-sync", true, none⟩]) (.thrown "unused")
        (fun n => if n = 0 then .failure "boom" else .success)).calls
      = [uploadRequestOf ⟨"a.md", "md", "x"⟩ (some "fid"),
         uploadRequestOf ⟨"b.md", "md", "y"⟩ (some "fid")] :=
  ⟨(upload_failures_are_isolated [⟨"a.md", "md", "x"⟩, ⟨"b.md", "md", "y"⟩]
      (.resp 200 [⟨"fid", "obsidian-sync", true, none⟩]) (.thrown "unused")
      (fun n => if n = 0 then .failure "boom" else .success) 0 "boom" rfl).2.1,
   (upload_failures_are_isolated [⟨"a.md", "md", "x"⟩, ⟨"b.md", "md", "y"⟩]
      (.resp 200 [⟨"fid", "obsidian-sync", true, none⟩]) (.thrown "unused")
      (fun n => if n = 0 then .failure "boom" else .success) 0 "boom" rfl).2.2
      "fid" rfl (by decide)⟩

/-- C5: whenever folder resolution yields null, zero upload calls are
issued — the trace is just the listing call and the failed creation call —
and the last notice of the invocation is the failure notice. -/
theorem null_resolution_skips_uploads (md : List TFile)
    (lo : HttpResult (List RemoteItem)) (co : HttpResult CreateFolderResponse)
    (uo : Nat → UploadOutcome)
    (h : resolveFolderId (fetchFiles lo).files co = none) :
    uploadCalls (exploreAndUpload md lo co uo).calls = []
    ∧ (exploreAndUpload md lo co uo).calls
        = [ApiCall.listFiles,
           ApiCall.createFolderCall (createFolderRequestBody "obsidian-sync")]
    ∧ (exploreAndUpload md lo co uo).notices.getLast?
        = some "Failed to determine folder ID for uploads." := by
  have hfalse : strOptTruthy (resolveFolderId (fetchFiles lo).files co) = false := by
    rw [h]
    rfl
  have hfind := find?_eq_none_of_resolve_none (fetchFiles lo).files co h
  refine ⟨?_, ?_, ?_⟩
  · rw [uploadCalls_exploreAndUpload, hfalse]
    simp
  · rw [exploreAndUpload_calls, hfind, hfalse]
    simp
  · rw [exploreAndUpload_notices, hfind, hfalse]
    simp only [if_false, Bool.false_eq_true, List.cons_append]
    exact List.getLast?_concat _

/-- Witness for C5: empty remote list and failed folder creation; no
uploads happen despite a local document being present, and the failure
notice is last. -/
theorem null_resolution_skips_uploads_witness :
    uploadCalls (exploreAndUpload [⟨"a.md", "md", "x"⟩] (.resp 200 [])
        (.resp 500 ⟨"ignored"⟩) (fun _ => .success)).calls = []
    ∧ (exploreAndUpload [⟨"a.md", "md", "x"⟩] (.resp 200 [])
        (.resp 500 ⟨"ignored"⟩) (fun _ => .success)).notices.getLast?
        = some "Failed to determine folder ID for uploads." :=
  ⟨(null_resolution_skips_uploads [⟨"a.md", "md", "x"⟩] (.resp 200 [])
      (.resp 500 ⟨"ignored"⟩) (fun _ => .success) rfl).1,
   (null_resolution_skips_uploads [⟨"a.md", "md", "x"⟩] (.resp 200 [])
      (.resp 500 ⟨"ignored"⟩) (fun _ => .success) rfl).2.2⟩

/-- C6 (code bug): the reconciler avoids a duplicate create-folder call
when the listing succeeds, but when the listing call fails — even though
the `obsidian-sync` folder exists remotely — `fetchFiles` degrades to the
empty sequence and the reconciler issues a spurious create-folder call,
violating the no-duplicate invariant. -/
theorem duplicate_create_on_listing_failure :
    countCreate (exploreAndUpload []
        (.resp 200 [⟨"fid", "obsidian-sync", true, none⟩])
        (.resp 200 ⟨"dup-id"⟩) (fun _ => .success)).calls = 0
    ∧ (fetchFiles (.thrown "network error")).files = []
    ∧ countCreate (exploreAndUpload [] (.thrown "network error")
        (.resp 200 ⟨"dup-id"⟩) (fun _ => .success)).calls = 1 := by
  refine ⟨rfl, rfl, rfl⟩

/-- C10: the matching predicate of the reconciler ignores `parent_id`: an
item named `obsidian-sync` with `is_folder = true` is matched and its id
reused whatever its parent id is, including a non-null one (a nested
folder), and no create-folder call is issued. -/
theorem reconcile_ignores_parent_id (i : String) (pid : Option String)
    (rest : List RemoteItem) (md : List TFile)
    (co : HttpResult CreateFolderResponse) (uo : Nat → UploadOutcome) :
    folderMatch ⟨i, "obsidian-sync", true, pid⟩ = true
    ∧ resolveFolderId (⟨i, "obsidian-sync", true, pid⟩ :: rest) co = some i
    ∧ countCreate (exploreAndUpload md
        (.resp 200 (⟨i, "obsidian-sync", true, pid⟩ :: rest)) co uo).calls = 0 := by
  have hfind : (⟨i, "obsidian-sync", true, pid⟩ :: rest).find? folderMatch
      = some ⟨i, "obsidian-sync", true, pid⟩ :=
    List.find?_cons_of_pos rest rfl
  refine ⟨rfl, ?_, ?_⟩
  · rw [resolveFolderId, hfind]
  · rw [countCreate_exploreAndUpload,
      show (fetchFiles (.resp 200 (⟨i, "obsidian-sync", true, pid⟩ :: rest))).files
          = ⟨i, "obsidian-sync", true, pid⟩ :: rest from rfl, hfind]

end QuivrSync
